import Mathlib

/-
Verification of the gwrs data-model core against its specification.

Shallow embedding conventions:
* Rust `f64` values are modelled as rationals (ℚ): every operation of the
  core compares, adds and scales finite numeric values, and the claims are
  about the ordering/arithmetic structure of those operations, not about
  floating-point rounding.
* `ndarray::Array1<f64>` is modelled as `List ℚ`.
* Rust `Option<T>` is `Option T`; `Result<T, QuantityError>` is
  `Except QuantityError T`.  A Rust function that can also panic (via
  `expect` or an `ndarray` shape mismatch) returns `Outcome T`, whose
  `fatal` constructor records the panic.
* The `astronomy` crate (Quantity / Unit / Time) is an external collaborator
  of this repository; its operations are modelled from the spec's
  external-interface contract (section 6) and the behaviour its callers
  observe in the repository's tests.
-/

namespace GWRS

/-! ## Segment algebra (src/segments/core.rs)

The `Segment` type in the source is specialised to `f64`; bounds are
modelled as ℚ. -/

/-- Semi-open interval `[start, end)`; mirrors `pub struct Segment`. -/
structure Segment where
  start : ℚ
  «end» : ℚ
  deriving DecidableEq, Repr

/-- `Segment::new`: swaps the bounds when given in reverse order. -/
def Segment.new (start «end» : ℚ) : Segment :=
  if start > «end» then { start := «end», «end» := start }
  else { start := start, «end» := «end» }

/-- `Segment::contains`: containment of another segment. -/
def Segment.contains (s other : Segment) : Bool :=
  decide (s.start ≤ other.start) && decide (other.«end» ≤ s.«end»)

/-- `Segment::is_empty`. -/
def Segment.is_empty (s : Segment) : Bool :=
  decide (s.start = s.«end»)

/-- `impl BitAnd for Segment` (intersection operator `&`). -/
def Segment.bitand (s rhs : Segment) : Segment :=
  let start := max s.start rhs.start
  let e := min s.«end» rhs.«end»
  if start ≥ e then Segment.new start start
  else Segment.new start e

/-- `impl BitOr for Segment` (union operator `|`). -/
def Segment.bitor (s rhs : Segment) : Segment :=
  Segment.new (min s.start rhs.start) (max s.«end» rhs.«end»)

/-- `impl Sub for Segment` (difference operator `-`): the five-way case
split of the source, in source order. -/
def Segment.sub (s rhs : Segment) : Segment :=
  if s.«end» ≤ rhs.start ∨ rhs.«end» ≤ s.start then s
  else if rhs.start ≤ s.start ∧ s.«end» ≤ rhs.«end» then Segment.new s.start s.start
  else if s.start < rhs.start ∧ rhs.start < s.«end» then Segment.new s.start rhs.start
  else if rhs.start < s.start ∧ s.start < rhs.«end» ∧ rhs.«end» < s.«end» then
    Segment.new rhs.«end» s.«end»
  else Segment.new s.start s.start

/-- C1 counterexample: for `rhs` strictly inside `self` (both non-empty),
the difference is NOT the empty segment anchored at `self.start`:
`(0,10) - (2,8)` returns `(0,2)`. -/
theorem c1_counterexample :
    (Segment.new 0 10).start < (Segment.new 2 8).start ∧
    (Segment.new 2 8).«end» < (Segment.new 0 10).«end» ∧
    (Segment.new 2 8).start < (Segment.new 2 8).«end» ∧
    Segment.sub (Segment.new 0 10) (Segment.new 2 8) = Segment.new 0 2 ∧
    Segment.sub (Segment.new 0 10) (Segment.new 2 8) ≠
      { start := (0 : ℚ), «end» := (0 : ℚ) } := by
  decide

/-- C1 (amended): for every pair of segments with `rhs` strictly inside
`self` (`self.start < rhs.start`, `rhs.end < self.end`, `rhs` non-empty),
the difference `self - rhs` returns the LEFT piece `[self.start, rhs.start)`;
the empty-segment fallback of the difference operator is not reached for
strictly interior `rhs`. -/
theorem c1_sub_strict_interior (s rhs : Segment)
    (h1 : s.start < rhs.start) (h2 : rhs.«end» < s.«end»)
    (h3 : rhs.start < rhs.«end») :
    Segment.sub s rhs = { start := s.start, «end» := rhs.start } := by
  have hb : rhs.start < s.«end» := lt_trans h3 h2
  have hna : ¬(s.«end» ≤ rhs.start ∨ rhs.«end» ≤ s.start) := by
    push_neg
    exact ⟨hb, lt_trans h1 h3⟩
  have hnc : ¬(rhs.start ≤ s.start ∧ s.«end» ≤ rhs.«end») := by
    intro hc
    exact absurd hc.1 (not_le.mpr h1)
  rw [Segment.sub, if_neg hna, if_neg hnc, if_pos ⟨h1, hb⟩, Segment.new,
    if_neg (not_lt.mpr (le_of_lt h1))]

/-- C1 witness: instantiating the strict-interior difference theorem at
`(0,10) - (2,8)`. -/
theorem c1_sub_strict_interior_witness :
    Segment.sub (Segment.new 0 10) (Segment.new 2 8) =
      { start := (Segment.new 0 10).start, «end» := (Segment.new 2 8).start } :=
  c1_sub_strict_interior (Segment.new 0 10) (Segment.new 2 8)
    (by decide) (by decide) (by decide)

/-- C6 counterexample: `Segment::contains` takes a segment, not a value; a
point `v` is only expressible as the degenerate segment `[v, v]`, and a
point exactly at `end` IS contained, contradicting the claimed strict
`value < end` (half-open) semantics. -/
theorem c6_counterexample :
    (Segment.new 0 10).contains (Segment.new 10 10) = true ∧
    ¬((0 : ℚ) ≤ 10 ∧ (10 : ℚ) < 10) := by
  decide

/-- C6 (amended): `contains` is segment containment:
`s.contains(other)` holds iff `s.start ≤ other.start ∧ other.end ≤ s.end`.
For a value `v` encoded as the degenerate segment `[v, v]`, containment
holds iff `s.start ≤ v ∧ v ≤ s.end` — closed at `end`, so a point exactly
at `end` IS contained in a normalized segment. -/
theorem c6_contains_point (s : Segment) (v : ℚ) (h : s.start ≤ s.«end») :
    ((s.contains (Segment.new v v) = true) ↔ (s.start ≤ v ∧ v ≤ s.«end»)) ∧
    s.contains (Segment.new s.«end» s.«end») = true := by
  constructor
  · rw [Segment.contains, Segment.new, if_neg (lt_irrefl v)]
    simp
  · rw [Segment.contains, Segment.new, if_neg (lt_irrefl s.«end»)]
    simp [h]

/-- C6 witness: the point `10` at the upper bound of `[0, 10)` is contained
per the closed segment-containment semantics. -/
theorem c6_contains_point_witness :
    (((Segment.new 0 10).contains (Segment.new 10 10) = true) ↔
      ((Segment.new 0 10).start ≤ 10 ∧ (10 : ℚ) ≤ (Segment.new 0 10).«end»)) ∧
    (Segment.new 0 10).contains
      (Segment.new (Segment.new 0 10).«end» (Segment.new 0 10).«end») = true :=
  c6_contains_point (Segment.new 0 10) 10 (by decide)

/-- C9: the intersection has `start = max(starts)` and, when the segments
overlap, `end = min(ends)`; when `max(starts) ≥ min(ends)` the result is
the empty segment anchored at `max(starts)`. -/
theorem c9_bitand (s1 s2 : Segment) :
    (max s1.start s2.start < min s1.«end» s2.«end» →
      Segment.bitand s1 s2 =
        { start := max s1.start s2.start, «end» := min s1.«end» s2.«end» }) ∧
    (min s1.«end» s2.«end» ≤ max s1.start s2.start →
      Segment.bitand s1 s2 =
        { start := max s1.start s2.start, «end» := max s1.start s2.start }) := by
  constructor
  · intro h
    rw [Segment.bitand]
    simp only [ge_iff_le, if_neg (not_le.mpr h)]
    rw [Segment.new, if_neg (not_lt.mpr (le_of_lt h))]
  · intro h
    rw [Segment.bitand]
    simp only [ge_iff_le, if_pos h]
    rw [Segment.new, if_neg (lt_irrefl _)]

/-- C9 witness: `[0,10) & [5,15) = [5,10)` (overlap) and
`[0,5) & [10,15) = [10,10)` (disjoint, anchored at the max start). -/
theorem c9_bitand_witness :
    Segment.bitand (Segment.new 0 10) (Segment.new 5 15) =
      { start := max (Segment.new 0 10).start (Segment.new 5 15).start,
        «end» := min (Segment.new 0 10).«end» (Segment.new 5 15).«end» } ∧
    Segment.bitand (Segment.new 0 5) (Segment.new 10 15) =
      { start := max (Segment.new 0 5).start (Segment.new 10 15).start,
        «end» := max (Segment.new 0 5).start (Segment.new 10 15).start } :=
  ⟨(c9_bitand (Segment.new 0 10) (Segment.new 5 15)).1 (by decide),
   (c9_bitand (Segment.new 0 5) (Segment.new 10 15)).2 (by decide)⟩

/-! ## External collaborators: Quantity / Unit / Time / Channel

Modelled from the spec: the dimensional-analysis engine (`astronomy` crate)
is an external collaborator of this repository; only its consumed interface
is specified (spec sections 3 and 6).  A `Unit` is a named scale factor
plus a dimension vector; a `Quantity` is an array of reals tagged with a
`Unit`; conversion rescales when dimensions match and fails otherwise;
`+`/`-` fail when units are incompatible reporting both unit names, while
`*`/`/` never fail on dimensional grounds.  Elementwise arithmetic between
arrays of different lengths is an `ndarray` shape panic, modelled as
`Outcome.fatal`. -/

/-- Modelled from the spec: dimension vector of a unit (`UnitProduct`),
restricted to the base dimensions the repository's tests exercise. -/
structure UnitProduct where
  mass : Int := 0
  length : Int := 0
  time : Int := 0
  deriving DecidableEq, Repr

def UnitProduct.zero : UnitProduct := {}

def UnitProduct.add (a b : UnitProduct) : UnitProduct :=
  { mass := a.mass + b.mass, length := a.length + b.length, time := a.time + b.time }

def UnitProduct.sub (a b : UnitProduct) : UnitProduct :=
  { mass := a.mass - b.mass, length := a.length - b.length, time := a.time - b.time }

/-- Modelled from the spec: a named scale factor plus a dimension vector. -/
structure Unit where
  name : String
  scale : ℚ
  dimensions : UnitProduct
  deriving DecidableEq, Repr

def Unit.new (name : String) (scale : ℚ) (dimensions : UnitProduct) : Unit :=
  { name := name, scale := scale, dimensions := dimensions }

def SECOND : Unit := ⟨"s", 1, { time := 1 }⟩

def HERTZ : Unit := ⟨"Hz", 1, { time := -1 }⟩

def METER : Unit := ⟨"m", 1, { length := 1 }⟩

/-- Modelled from the spec: a dimensioned array of real values. -/
structure Quantity where
  value : List ℚ
  unit : Unit
  deriving DecidableEq, Repr

def Quantity.new (value : List ℚ) (unit : Unit) : Quantity :=
  { value := value, unit := unit }

/-- Error taxonomy observed at the consumed `QuantityError` interface. -/
inductive QuantityError where
  | invalidQuantity (msg : String)
  | mismatchError (msg : String)
  | incompatibleUnits (src tgt : String)
  | incompatibleAddition (lhs rhs : String)
  deriving DecidableEq, Repr

/-- Outcome of a Rust computation that may return, error, or panic. -/
inductive Outcome (α : Type) where
  | ok (a : α)
  | err (e : QuantityError)
  | fatal (msg : String)
  deriving DecidableEq, Repr

/-- Modelled from the spec: `Quantity::to` rescales into the target unit
when the dimensions match and fails with a conversion error otherwise. -/
def Quantity.to (q : Quantity) (target : Unit) : Except QuantityError Quantity :=
  if q.unit.dimensions = target.dimensions then
    .ok ⟨q.value.map (fun x => x * q.unit.scale / target.scale), target⟩
  else
    .error (.incompatibleUnits q.unit.name target.name)

/-- Modelled from the spec: `Quantity + Quantity` — elementwise sum; rejects
any unit mismatch reporting both unit names; shape mismatch panics. -/
def Quantity.add (q1 q2 : Quantity) : Outcome Quantity :=
  if q1.value.length ≠ q2.value.length then .fatal "shape mismatch"
  else if q1.unit = q2.unit then .ok ⟨List.zipWith (· + ·) q1.value q2.value, q1.unit⟩
  else .err (.incompatibleAddition q1.unit.name q2.unit.name)

/-- Modelled from the spec: `Quantity - Quantity`, same contract as `+`. -/
def Quantity.sub (q1 q2 : Quantity) : Outcome Quantity :=
  if q1.value.length ≠ q2.value.length then .fatal "shape mismatch"
  else if q1.unit = q2.unit then .ok ⟨List.zipWith (· - ·) q1.value q2.value, q1.unit⟩
  else .err (.incompatibleAddition q1.unit.name q2.unit.name)

/-- Modelled from the spec: `Quantity * Quantity` — never fails on
dimensional grounds; dimension vectors add, scales multiply. -/
def Quantity.mul (q1 q2 : Quantity) : Outcome Quantity :=
  if q1.value.length ≠ q2.value.length then .fatal "shape mismatch"
  else .ok ⟨List.zipWith (· * ·) q1.value q2.value,
    ⟨q1.unit.name ++ " " ++ q2.unit.name, q1.unit.scale * q2.unit.scale,
      q1.unit.dimensions.add q2.unit.dimensions⟩⟩

/-- Modelled from the spec: `Quantity / Quantity` — never fails on
dimensional grounds; dimension vectors subtract, scales divide. -/
def Quantity.div (q1 q2 : Quantity) : Outcome Quantity :=
  if q1.value.length ≠ q2.value.length then .fatal "shape mismatch"
  else .ok ⟨List.zipWith (· / ·) q1.value q2.value,
    ⟨q1.unit.name ++ "/" ++ q2.unit.name, q1.unit.scale / q2.unit.scale,
      q1.unit.dimensions.sub q2.unit.dimensions⟩⟩

/-- Modelled from the spec: GPS time, convertible to/from a real-valued
seconds count. -/
structure Time where
  gps : ℚ
  deriving DecidableEq, Repr

def Time.from_gps_seconds (x : ℚ) : Time := ⟨x⟩

def Time.as_gps_seconds_f64 (t : Time) : ℚ := t.gps

/-- Modelled from the spec: the channel descriptor is consumed as opaque
metadata, carried through unchanged; only its identity matters here. -/
structure Channel where
  name : String
  deriving DecidableEq, Repr

/-! ## GWArray (src/types/array.rs) -/

/-- `pub struct GWArray` of src/types/array.rs (the version consumed by
`Series`; src/array.rs holds an older duplicate without epoch/channel). -/
structure GWArray where
  quantity : Quantity
  name : Option String
  epoch : Option Time
  channel : Option Channel
  deriving DecidableEq, Repr

/-- `GWArray::new`: a missing unit defaults to the dimensionless unit with
empty name and scale 1. -/
def GWArray.new (value : List ℚ) (unit : Option Unit) (name : Option String)
    (epoch : Option Time) (channel : Option Channel) : GWArray :=
  { quantity := Quantity.new value (unit.getD ⟨"", 1, UnitProduct.zero⟩),
    name := name, epoch := epoch, channel := channel }

def GWArray.value (a : GWArray) : List ℚ := a.quantity.value

def GWArray.unit (a : GWArray) : Unit := a.quantity.unit

def GWArray.get_name (a : GWArray) : Option String := a.name

def GWArray.get_epoch (a : GWArray) : Option Time := a.epoch

def GWArray.get_channel (a : GWArray) : Option Channel := a.channel

/-- `impl Add for GWArray`: delegate to the quantity layer, keep the
left-hand operand's metadata. -/
def GWArray.add (l r : GWArray) : Outcome GWArray :=
  match Quantity.add l.quantity r.quantity with
  | .ok q => .ok (GWArray.new q.value (some q.unit) l.name l.epoch l.channel)
  | .err e => .err e
  | .fatal m => .fatal m

/-- `impl Sub for GWArray`. -/
def GWArray.sub (l r : GWArray) : Outcome GWArray :=
  match Quantity.sub l.quantity r.quantity with
  | .ok q => .ok (GWArray.new q.value (some q.unit) l.name l.epoch l.channel)
  | .err e => .err e
  | .fatal m => .fatal m

/-- `impl Mul for GWArray`. -/
def GWArray.mul (l r : GWArray) : Outcome GWArray :=
  match Quantity.mul l.quantity r.quantity with
  | .ok q => .ok (GWArray.new q.value (some q.unit) l.name l.epoch l.channel)
  | .err e => .err e
  | .fatal m => .fatal m

/-- `impl Div for GWArray`. -/
def GWArray.div (l r : GWArray) : Outcome GWArray :=
  match Quantity.div l.quantity r.quantity with
  | .ok q => .ok (GWArray.new q.value (some q.unit) l.name l.epoch l.channel)
  | .err e => .err e
  | .fatal m => .fatal m

/-! ## Series (src/types/series.rs) -/

/-- `pub struct Series`. -/
structure Series where
  array_data : GWArray
  x0 : Option Quantity
  dx : Option Quantity
  _xindex_cache : Option Quantity
  deriving DecidableEq, Repr

/-- `Series::new_internal` (private constructor). -/
def Series.new_internal (array_data : GWArray) (x0 dx _xindex_cache : Option Quantity) :
    Series :=
  { array_data := array_data, x0 := x0, dx := dx, _xindex_cache := _xindex_cache }

def Series.value (s : Series) : List ℚ := s.array_data.value

def Series.unit (s : Series) : Unit := s.array_data.unit

def Series.get_name (s : Series) : Option String := s.array_data.get_name

def Series.get_epoch (s : Series) : Option Time := s.array_data.get_epoch

def Series.get_channel (s : Series) : Option Channel := s.array_data.get_channel

def Series.get_x0 (s : Series) : Option Quantity := s.x0

def Series.get_dx (s : Series) : Option Quantity := s.dx

def Series.get_xindex (s : Series) : Option Quantity := s._xindex_cache

/-- `pub struct SeriesBuilder` (all fields optional until `build`). -/
structure SeriesBuilder where
  value : Option (List ℚ) := none
  unit : Option Unit := none
  name : Option String := none
  epoch : Option Time := none
  channel : Option Channel := none
  x0 : Option Quantity := none
  dx : Option Quantity := none
  xindex : Option Quantity := none

def SeriesBuilder.new : SeriesBuilder := {}

/-- `SeriesBuilder::build`: validates and materializes the axis.  The axis
comes verbatim from an explicit `xindex` (after a length check), else is
derived from scalar, dimension-compatible `x0`/`dx`, else is absent. -/
def SeriesBuilder.build (b : SeriesBuilder) : Except QuantityError Series :=
  match b.value with
  | none => .error (.invalidQuantity "Value is required to build Series")
  | some value =>
    let array_data := GWArray.new value b.unit b.name b.epoch b.channel
    let data_len := array_data.value.length
    match b.xindex with
    | some index_quantity =>
      if index_quantity.value.length ≠ data_len then
        .error (.mismatchError ("Index length (" ++ toString index_quantity.value.length ++
          ") must match value length (" ++ toString data_len ++ ")"))
      else
        .ok (Series.new_internal array_data b.x0 b.dx (some index_quantity))
    | none =>
      match b.x0, b.dx with
      | some start_quantity, some step_quantity =>
        if start_quantity.value.length ≠ 1 ∨ step_quantity.value.length ≠ 1 then
          .error (.mismatchError "x0 and dx must be single-value quantities")
        else if start_quantity.unit.dimensions ≠ step_quantity.unit.dimensions then
          .error (.incompatibleUnits start_quantity.unit.name step_quantity.unit.name)
        else
          match step_quantity.to start_quantity.unit with
          | .error e => .error e
          | .ok conv =>
            let converted_dx := conv.value.headD 0
            let start_value := start_quantity.value.headD 0
            let x_values := (List.range data_len).map
              (fun (i : Nat) => start_value + (i : ℚ) * converted_dx)
            .ok (Series.new_internal array_data b.x0 b.dx
              (some (Quantity.new x_values start_quantity.unit)))
      | _, _ => .ok (Series.new_internal array_data b.x0 b.dx none)

/-- The recomputation block duplicated verbatim in both branches of the
axis re-derivation of `propagate_metadata_series`: `none` in the outer
`Option` models the `expect` panic on an impossible unit conversion. -/
def rederive_from_x0_dx (data_len : Nat) (x0c dxc : Option Quantity) :
    Option (Option Quantity) :=
  match x0c, dxc with
  | some start_quantity, some step_quantity =>
    if start_quantity.value.length ≠ 1 ∨ step_quantity.value.length ≠ 1 then
      some none
    else
      match step_quantity.to start_quantity.unit with
      | .error _ => none
      | .ok conv =>
        some (some (Quantity.new
          ((List.range data_len).map
            (fun (i : Nat) => start_quantity.value.headD 0 + (i : ℚ) * conv.value.headD 0))
          start_quantity.unit))
  | _, _ => some none

/-- `propagate_metadata_series`: field-by-field LHS-preferred / RHS-fallback
metadata merge, followed by the axis re-derivation.  Returns `none` when
the Rust function would panic inside the re-derivation. -/
def propagate_metadata_series (result_quantity : Quantity) (lhs rhs : Series) :
    Option Series :=
  let new_name := lhs.array_data.name.or rhs.array_data.name
  let new_epoch := lhs.array_data.epoch.or rhs.array_data.epoch
  let new_channel := lhs.array_data.channel.or rhs.array_data.channel
  let x0_clone := lhs.x0.or rhs.x0
  let dx_clone := lhs.dx.or rhs.dx
  let xindex_clone := lhs._xindex_cache.or rhs._xindex_cache
  let data_len := result_quantity.value.length
  let re_derived_xindex : Option (Option Quantity) :=
    match xindex_clone with
    | some index_quantity =>
      if index_quantity.value.length = data_len then some (some index_quantity)
      else rederive_from_x0_dx data_len x0_clone dx_clone
    | none => rederive_from_x0_dx data_len x0_clone dx_clone
  re_derived_xindex.map (fun idx =>
    Series.new_internal
      (GWArray.new result_quantity.value (some result_quantity.unit)
        new_name new_epoch new_channel)
      x0_clone dx_clone idx)

/-- Shared shape of the four `Series` arithmetic operators: delegate to the
wrapped `GWArray` operation, then propagate metadata (the Rust source
repeats this pattern verbatim per operator). -/
def series_binop (gwop : GWArray → GWArray → Outcome GWArray) (l r : Series) :
    Outcome Series :=
  match gwop l.array_data r.array_data with
  | .ok arr =>
    match propagate_metadata_series arr.quantity l r with
    | some s => .ok s
    | none => .fatal "Unit conversion error in propagate_metadata_series"
  | .err e => .err e
  | .fatal m => .fatal m

/-- `impl Add for Series`. -/
def Series.add (l r : Series) : Outcome Series := series_binop GWArray.add l r

/-- `impl Sub for Series`. -/
def Series.sub (l r : Series) : Outcome Series := series_binop GWArray.sub l r

/-- `impl Mul for Series`. -/
def Series.mul (l r : Series) : Outcome Series := series_binop GWArray.mul l r

/-- `impl Div for Series`. -/
def Series.div (l r : Series) : Outcome Series := series_binop GWArray.div l r

/-! ## TimeSeriesBase (src/timeseries/core.rs) -/

/-- `pub struct TimeSeriesBase`: wraps a `Series`, no new stored state. -/
structure TimeSeriesBase where
  series_data : Series
  deriving DecidableEq, Repr

def TimeSeriesBase.new_internal (series_data : Series) : TimeSeriesBase :=
  { series_data := series_data }

/-- `pub struct TimeSeriesBaseBuilder`. -/
structure TimeSeriesBaseBuilder where
  value : Option (List ℚ) := none
  unit : Option Unit := none
  name : Option String := none
  channel : Option Channel := none
  t0 : Option Time := none
  dt : Option Quantity := none
  sample_rate : Option Quantity := none
  times : Option Quantity := none
  _raw_t0_float : Option ℚ := none

def TimeSeriesBaseBuilder.new : TimeSeriesBaseBuilder := {}

/-- Final step of `TimeSeriesBaseBuilder::build`: build the underlying
`Series` and wrap it. -/
def ts_finish (sb : SeriesBuilder) : Outcome TimeSeriesBase :=
  match sb.build with
  | .ok s => .ok (TimeSeriesBase.new_internal s)
  | .error e => .err e

/-- `TimeSeriesBaseBuilder::build`: maps the time-domain arguments
(`times`, `t0`/`epoch`, `dt`/`sample_rate`) onto the underlying
`SeriesBuilder`'s `xindex`, `x0`, `dx`. -/
def TimeSeriesBaseBuilder.build (b : TimeSeriesBaseBuilder) : Outcome TimeSeriesBase :=
  match b.value with
  | none => .err (.invalidQuantity "Value is required to build TimeSeriesBase")
  | some value =>
    let sb : SeriesBuilder :=
      { value := some value,
        unit := some (b.unit.getD (Unit.new "" 1 UnitProduct.zero)),
        name := b.name, channel := b.channel }
    match b.times with
    | some times_quantity => ts_finish { sb with xindex := some times_quantity }
    | none =>
      let resolved_t0_quantity : Option Quantity :=
        match b.t0 with
        | some epoch_time => some (Quantity.new [epoch_time.as_gps_seconds_f64] SECOND)
        | none => b._raw_t0_float.map (fun raw_t0 => Quantity.new [raw_t0] SECOND)
      let sb1 : SeriesBuilder :=
        match resolved_t0_quantity with
        | some t0_quantity => { sb with x0 := some t0_quantity }
        | none => sb
      match b.dt with
      | some dt_quantity => ts_finish { sb1 with dx := some dt_quantity }
      | none =>
        match b.sample_rate with
        | some sample_rate_quantity =>
          if sample_rate_quantity.value.length ≠ 1 then
            .err (.invalidQuantity "Sample rate must be a scalar quantity.")
          else
            match Quantity.div (Quantity.new [1] (Unit.new "" 1 UnitProduct.zero))
                sample_rate_quantity with
            | .fatal m => .fatal m
            | .err e => .err e
            | .ok one_over =>
              match one_over.to SECOND with
              | .error e => .err e
              | .ok dt_converted => ts_finish { sb1 with dx := some dt_converted }
        | none => ts_finish sb1

def TimeSeriesBase.value (ts : TimeSeriesBase) : List ℚ := ts.series_data.value

def TimeSeriesBase.unit (ts : TimeSeriesBase) : Unit := ts.series_data.unit

def TimeSeriesBase.get_name (ts : TimeSeriesBase) : Option String := ts.series_data.get_name

def TimeSeriesBase.get_channel (ts : TimeSeriesBase) : Option Channel :=
  ts.series_data.get_channel

def TimeSeriesBase.get_t0 (ts : TimeSeriesBase) : Option Quantity := ts.series_data.get_x0

def TimeSeriesBase.get_dt (ts : TimeSeriesBase) : Option Quantity := ts.series_data.get_dx

def TimeSeriesBase.get_times (ts : TimeSeriesBase) : Option Quantity :=
  ts.series_data.get_xindex

/-- `TimeSeriesBase::get_epoch`: reconstructs a GPS time from the stored
`t0` quantity (the Rust source indexes `value[0]`; `headD 0` is its total
rendering — builder-made instances always carry a single value). -/
def TimeSeriesBase.get_epoch (ts : TimeSeriesBase) : Option Time :=
  ts.get_t0.map (fun t0_quantity => Time.from_gps_seconds (t0_quantity.value.headD 0))

/-- `TimeSeriesBase::get_sample_rate`: `1/dt` converted to Hertz; the two
`expect` calls of the source are `Outcome.fatal`. -/
def TimeSeriesBase.get_sample_rate (ts : TimeSeriesBase) : Option (Outcome Quantity) :=
  ts.get_dt.map (fun dt_quantity =>
    match Quantity.div (Quantity.new [1] (Unit.new "" 1 UnitProduct.zero)) dt_quantity with
    | .fatal _ => Outcome.fatal "Failed to divide Quantity for sample rate."
    | .err _ => Outcome.fatal "Failed to divide Quantity for sample rate."
    | .ok one_over =>
      match one_over.to HERTZ with
      | .error _ => Outcome.fatal "Failed to convert Quantity to Hertz."
      | .ok r => Outcome.ok r)

/-- `TimeSeriesBase::duration`: span of the materialized time axis. -/
def TimeSeriesBase.duration (ts : TimeSeriesBase) : Option Quantity :=
  ts.get_times.map (fun times_quantity =>
    match times_quantity.value with
    | [] => Quantity.new [0] times_quantity.unit
    | x :: xs => Quantity.new [(x :: xs).getLast (List.cons_ne_nil x xs) - x]
        times_quantity.unit)

/-! ## Statements of the axis re-derivation policy

`rederive_axis_policy` states the policy the code actually implements
(C2 as amended): reuse the selected cached axis when its length matches,
else recompute from the selected `x0`/`dx` only when both are
single-valued, else the axis is absent.  `claimC2_axis` states the policy
exactly as claim C2 words it, for the refinement comparison: recomputation
is not guarded by a single-value check. -/

/-- Recompute step of the policy the code implements: requires both the
start and the step to be single-valued. -/
def rederive_policy_from_x0_dx (x0c dxc : Option Quantity) (n : Nat) : Option Quantity :=
  match x0c, dxc with
  | some start_quantity, some step_quantity =>
    if start_quantity.value.length = 1 ∧ step_quantity.value.length = 1 then
      match step_quantity.to start_quantity.unit with
      | .ok conv =>
        some (Quantity.new
          ((List.range n).map
            (fun (i : Nat) => start_quantity.value.headD 0 + (i : ℚ) * conv.value.headD 0))
          start_quantity.unit)
      | .error _ => none
    else none
  | _, _ => none

/-- Axis re-derivation policy implemented by `propagate_metadata_series`
(claim C2 as amended). -/
def rederive_axis_policy (cand x0c dxc : Option Quantity) (n : Nat) : Option Quantity :=
  match cand with
  | some index_quantity =>
    if index_quantity.value.length = n then some index_quantity
    else rederive_policy_from_x0_dx x0c dxc n
  | none => rederive_policy_from_x0_dx x0c dxc n

/-- Recompute step exactly as claim C2 words it: whenever both an `x0` and
a `dx` are available, the axis is the builder's arithmetic progression
(no single-value guard). -/
def claimC2_recompute (x0c dxc : Option Quantity) (n : Nat) : Option Quantity :=
  match x0c, dxc with
  | some start_quantity, some step_quantity =>
    match step_quantity.to start_quantity.unit with
    | .ok conv =>
      some (Quantity.new
        ((List.range n).map
          (fun (i : Nat) => start_quantity.value.headD 0 + (i : ℚ) * conv.value.headD 0))
        start_quantity.unit)
    | .error _ => none
  | _, _ => none

/-- Axis re-derivation policy exactly as claim C2 states it. -/
def claimC2_axis (cand x0c dxc : Option Quantity) (n : Nat) : Option Quantity :=
  match cand with
  | some index_quantity =>
    if index_quantity.value.length = n then some index_quantity
    else claimC2_recompute x0c dxc n
  | none => claimC2_recompute x0c dxc n

/-! ## Helper lemmas -/

theorem rederive_from_x0_dx_some (n : Nat) (x0c dxc : Option Quantity)
    (idx : Option Quantity) (h : rederive_from_x0_dx n x0c dxc = some idx) :
    idx = rederive_policy_from_x0_dx x0c dxc n := by
  rcases x0c with _ | sq <;> rcases dxc with _ | dq <;>
    simp only [rederive_from_x0_dx, rederive_policy_from_x0_dx,
      Option.some.injEq] at h ⊢ <;>
    try exact h.symm
  by_cases hne : sq.value.length ≠ 1 ∨ dq.value.length ≠ 1
  · rw [if_pos hne] at h
    have hc : ¬(sq.value.length = 1 ∧ dq.value.length = 1) := by
      rcases hne with hne | hne <;> intro hcc
      · exact hne hcc.1
      · exact hne hcc.2
    rw [if_neg hc]
    simp only [Option.some.injEq] at h
    exact h.symm
  · rw [if_neg hne] at h
    push_neg at hne
    rw [if_pos hne]
    rcases hconv : dq.to sq.unit with e | conv
    · rw [hconv] at h
      exact absurd h (by simp)
    · simp only [hconv, Option.some.injEq] at h ⊢
      exact h.symm

theorem rederive_policy_from_x0_dx_some_length (x0c dxc : Option Quantity) (n : Nat)
    (jq : Quantity) (hj : rederive_policy_from_x0_dx x0c dxc n = some jq) :
    jq.value.length = n := by
  rcases x0c with _ | sq <;> rcases dxc with _ | dq
  · simp [rederive_policy_from_x0_dx] at hj
  · simp [rederive_policy_from_x0_dx] at hj
  · simp [rederive_policy_from_x0_dx] at hj
  · simp only [rederive_policy_from_x0_dx] at hj
    split at hj
    · rcases hconv : dq.to sq.unit with e | conv
      · rw [hconv] at hj
        exact absurd hj (by simp)
      · simp only [hconv, Option.some.injEq] at hj
        rw [← hj]
        simp [Quantity.new]
    · exact absurd hj (by simp)

theorem rederive_policy_some_length (cand x0c dxc : Option Quantity) (n : Nat)
    (iq : Quantity) (h : rederive_axis_policy cand x0c dxc n = some iq) :
    iq.value.length = n := by
  rcases cand with _ | cq
  · exact rederive_policy_from_x0_dx_some_length x0c dxc n iq h
  · simp only [rederive_axis_policy] at h
    split at h
    next hl =>
      injection h with h2
      rw [← h2]
      exact hl
    next hl => exact rederive_policy_from_x0_dx_some_length x0c dxc n iq h

theorem propagate_ok_spec (q : Quantity) (l r s : Series)
    (h : propagate_metadata_series q l r = some s) :
    s.array_data.quantity.value = q.value ∧
    s.array_data.name = l.array_data.name.or r.array_data.name ∧
    s.array_data.epoch = l.array_data.epoch.or r.array_data.epoch ∧
    s.array_data.channel = l.array_data.channel.or r.array_data.channel ∧
    s.x0 = l.x0.or r.x0 ∧
    s.dx = l.dx.or r.dx ∧
    s._xindex_cache =
      rederive_axis_policy (l._xindex_cache.or r._xindex_cache)
        (l.x0.or r.x0) (l.dx.or r.dx) q.value.length := by
  simp only [propagate_metadata_series, Option.map_eq_some'] at h
  obtain ⟨idx, hidx, hs⟩ := h
  subst hs
  refine ⟨rfl, rfl, rfl, rfl, rfl, rfl, ?_⟩
  show idx = _
  unfold rederive_axis_policy
  rcases hx : l._xindex_cache.or r._xindex_cache with _ | iq
  · simp only [hx] at hidx ⊢
    exact rederive_from_x0_dx_some _ _ _ _ hidx
  · simp only [hx] at hidx ⊢
    split at hidx
    next hl =>
      rw [if_pos hl]
      injection hidx with h2
      exact h2.symm
    next hl =>
      rw [if_neg hl]
      exact rederive_from_x0_dx_some _ _ _ _ hidx

theorem series_binop_ok (gwop : GWArray → GWArray → Outcome GWArray)
    (l r s : Series) (h : series_binop gwop l r = .ok s) :
    ∃ q, propagate_metadata_series q l r = some s := by
  unfold series_binop at h
  split at h
  next arr heq =>
    split at h
    next s2 hp =>
      cases h
      exact ⟨arr.quantity, hp⟩
    next hp => exact absurd h (by simp)
  next e heq => exact absurd h (by simp)
  next m heq => exact absurd h (by simp)

theorem build_ok_fields (b : SeriesBuilder) (s : Series) (h : b.build = .ok s) :
    s.x0 = b.x0 ∧ s.dx = b.dx ∧
    s.array_data.name = b.name ∧ s.array_data.epoch = b.epoch ∧
    s.array_data.channel = b.channel ∧
    (∃ v, b.value = some v ∧ s.array_data.quantity.value = v) ∧
    (∀ iq, b.xindex = some iq → s._xindex_cache = some iq) := by
  rcases hv : b.value with _ | v
  · simp [SeriesBuilder.build, hv] at h
  rcases hxi : b.xindex with _ | iq
  · rcases hx0 : b.x0 with _ | sq <;> rcases hdx : b.dx with _ | dq <;>
      simp only [SeriesBuilder.build, hv, hxi, hx0, hdx] at h
    · cases h
      exact ⟨rfl, rfl, rfl, rfl, rfl, ⟨v, rfl, rfl⟩,
        fun iq2 hiq2 => absurd hiq2 (by simp)⟩
    · cases h
      exact ⟨rfl, rfl, rfl, rfl, rfl, ⟨v, rfl, rfl⟩,
        fun iq2 hiq2 => absurd hiq2 (by simp)⟩
    · cases h
      exact ⟨rfl, rfl, rfl, rfl, rfl, ⟨v, rfl, rfl⟩,
        fun iq2 hiq2 => absurd hiq2 (by simp)⟩
    · split at h
      next hlen => exact absurd h (by simp)
      next hlen =>
        split at h
        next hdim => exact absurd h (by simp)
        next hdim =>
          rcases hconv : dq.to sq.unit with e | conv
          · rw [hconv] at h
            exact absurd h (by simp)
          · simp only [hconv] at h
            cases h
            exact ⟨rfl, rfl, rfl, rfl, rfl, ⟨v, rfl, rfl⟩,
              fun iq2 hiq2 => absurd hiq2 (by simp)⟩
  · simp only [SeriesBuilder.build, hv, hxi] at h
    split at h
    next hlen => exact absurd h (by simp)
    next hlen =>
      cases h
      refine ⟨rfl, rfl, rfl, rfl, rfl, ⟨v, rfl, rfl⟩, ?_⟩
      intro iq2 hiq2
      injection hiq2 with h3
      rw [h3]
      rfl

theorem build_ok_cache_len (b : SeriesBuilder) (s : Series) (h : b.build = .ok s) :
    ∀ iq, s._xindex_cache = some iq →
      iq.value.length = s.array_data.quantity.value.length := by
  intro iq0 hiq0
  rcases hv : b.value with _ | v
  · simp [SeriesBuilder.build, hv] at h
  rcases hxi : b.xindex with _ | iq
  · rcases hx0 : b.x0 with _ | sq <;> rcases hdx : b.dx with _ | dq <;>
      simp only [SeriesBuilder.build, hv, hxi, hx0, hdx] at h
    · cases h
      exact absurd hiq0 (by simp [Series.new_internal])
    · cases h
      exact absurd hiq0 (by simp [Series.new_internal])
    · cases h
      exact absurd hiq0 (by simp [Series.new_internal])
    · split at h
      next hlen => exact absurd h (by simp)
      next hlen =>
        split at h
        next hdim => exact absurd h (by simp)
        next hdim =>
          rcases hconv : dq.to sq.unit with e | conv
          · rw [hconv] at h
            exact absurd h (by simp)
          · simp only [hconv] at h
            cases h
            simp only [Series.new_internal, Option.some.injEq] at hiq0
            rw [← hiq0]
            simp [Quantity.new, GWArray.new, GWArray.value, Series.new_internal]
  · simp only [SeriesBuilder.build, hv, hxi] at h
    split at h
    next hlen => exact absurd h (by simp)
    next hlen =>
      cases h
      simp only [Series.new_internal, Option.some.injEq] at hiq0
      rw [← hiq0]
      simp only [not_not] at hlen
      simpa [GWArray.new, GWArray.value, Quantity.new, Series.new_internal] using hlen

/-! ## Claims C2, C3, C8: arithmetic metadata and axis propagation -/

def c2_lhs_builder : SeriesBuilder :=
  { value := some [1, 2, 3], x0 := some (Quantity.new [0, 0] SECOND) }

def c2_rhs_builder : SeriesBuilder :=
  { value := some [1, 2, 3], dx := some (Quantity.new [2] SECOND) }

def c2_lhs : Series :=
  Series.new_internal (GWArray.new [1, 2, 3] none none none none)
    (some (Quantity.new [0, 0] SECOND)) none none

def c2_rhs : Series :=
  Series.new_internal (GWArray.new [1, 2, 3] none none none none)
    none (some (Quantity.new [2] SECOND)) none

def c2_sum : Series :=
  Series.new_internal
    (GWArray.new [2, 4, 6] (some (Unit.new "" 1 UnitProduct.zero)) none none none)
    (some (Quantity.new [0, 0] SECOND)) (some (Quantity.new [2] SECOND)) none

/-- C2 counterexample: two builder-produced series whose addition succeeds,
where no cached axis is available but an `x0` and a `dx` ARE available by
the LHS-preferred precedence (the `x0` is two-valued provenance), yet the
result's axis is absent — the code does NOT recompute the axis as the
claim states; `claimC2_axis` (the policy exactly as the claim words it)
would produce a recomputed axis. -/
theorem c2_counterexample :
    SeriesBuilder.build c2_lhs_builder = .ok c2_lhs ∧
    SeriesBuilder.build c2_rhs_builder = .ok c2_rhs ∧
    Series.add c2_lhs c2_rhs = .ok c2_sum ∧
    c2_lhs.x0.or c2_rhs.x0 = some (Quantity.new [0, 0] SECOND) ∧
    c2_lhs.dx.or c2_rhs.dx = some (Quantity.new [2] SECOND) ∧
    c2_lhs._xindex_cache.or c2_rhs._xindex_cache = none ∧
    c2_sum._xindex_cache = none ∧
    claimC2_axis (c2_lhs._xindex_cache.or c2_rhs._xindex_cache)
      (c2_lhs.x0.or c2_rhs.x0) (c2_lhs.dx.or c2_rhs.dx) c2_sum.value.length =
      some (Quantity.new [0, 2, 4] SECOND) ∧
    c2_sum._xindex_cache ≠
      claimC2_axis (c2_lhs._xindex_cache.or c2_rhs._xindex_cache)
        (c2_lhs.x0.or c2_rhs.x0) (c2_lhs.dx.or c2_rhs.dx) c2_sum.value.length := by
  have hr : List.range 3 = [0, 1, 2] := rfl
  norm_num [c2_lhs_builder, c2_rhs_builder, c2_lhs, c2_rhs, c2_sum,
    SeriesBuilder.build, Series.add, series_binop, GWArray.add, GWArray.new,
    GWArray.value, Quantity.add, Quantity.new, Quantity.to,
    propagate_metadata_series, rederive_from_x0_dx, Series.new_internal,
    Series.value, Option.or, SECOND, Unit.new, UnitProduct.zero,
    claimC2_axis, claimC2_recompute, hr]
  intro hcc
  cases hcc

/-- C2 (amended): for every successful Series arithmetic operation, the
result's cached axis follows `rederive_axis_policy`: a cached axis selected
by LHS-preferred/RHS-fallback precedence is reused verbatim when its length
equals the result's value length; otherwise, if an `x0` and a `dx` are
available by the same precedence AND both are single-valued, the axis is
recomputed as the arithmetic progression exactly as in the builder;
otherwise (including when an available `x0` or `dx` is not single-valued)
the axis is absent. -/
theorem c2_axis_rederivation (l r s : Series)
    (h : Series.add l r = .ok s ∨ Series.sub l r = .ok s ∨
         Series.mul l r = .ok s ∨ Series.div l r = .ok s) :
    s._xindex_cache =
      rederive_axis_policy (l._xindex_cache.or r._xindex_cache)
        (l.x0.or r.x0) (l.dx.or r.dx) s.value.length := by
  have hq : ∃ q, propagate_metadata_series q l r = some s := by
    rcases h with h | h | h | h
    · exact series_binop_ok GWArray.add l r s h
    · exact series_binop_ok GWArray.sub l r s h
    · exact series_binop_ok GWArray.mul l r s h
    · exact series_binop_ok GWArray.div l r s h
  obtain ⟨q, hp⟩ := hq
  obtain ⟨hval, -, -, -, -, -, hcache⟩ := propagate_ok_spec q l r s hp
  simp only [hcache, Series.value, GWArray.value, hval]

def c2_witness_lhs : Series :=
  Series.new_internal (GWArray.new [1] none none none none) none none none

def c2_witness_rhs : Series :=
  Series.new_internal (GWArray.new [2] none none none none) none none none

def c2_witness_sum : Series :=
  Series.new_internal
    (GWArray.new [3] (some (Unit.new "" 1 UnitProduct.zero)) none none none)
    none none none

/-- C2 witness: the amended axis-rederivation theorem instantiated at a
concrete successful addition. -/
theorem c2_axis_rederivation_witness :
    c2_witness_sum._xindex_cache =
      rederive_axis_policy (c2_witness_lhs._xindex_cache.or c2_witness_rhs._xindex_cache)
        (c2_witness_lhs.x0.or c2_witness_rhs.x0)
        (c2_witness_lhs.dx.or c2_witness_rhs.dx) c2_witness_sum.value.length :=
  c2_axis_rederivation c2_witness_lhs c2_witness_rhs c2_witness_sum
    (Or.inl (by norm_num [c2_witness_lhs, c2_witness_rhs, c2_witness_sum,
      Series.add, series_binop, GWArray.add, GWArray.new, Quantity.add,
      Quantity.new, propagate_metadata_series, rederive_from_x0_dx,
      Series.new_internal, Option.or, Unit.new, UnitProduct.zero]))

def c3_lhs_builder : SeriesBuilder :=
  { value := some [1, 2, 3], x0 := some (Quantity.new [0] SECOND) }

def c3_rhs_builder : SeriesBuilder :=
  { value := some [1, 2, 3], dx := some (Quantity.new [2] SECOND) }

def c3_lhs : Series :=
  Series.new_internal (GWArray.new [1, 2, 3] none none none none)
    (some (Quantity.new [0] SECOND)) none none

def c3_rhs : Series :=
  Series.new_internal (GWArray.new [1, 2, 3] none none none none)
    none (some (Quantity.new [2] SECOND)) none

def c3_sum : Series :=
  Series.new_internal
    (GWArray.new [2, 4, 6] (some (Unit.new "" 1 UnitProduct.zero)) none none none)
    (some (Quantity.new [0] SECOND)) (some (Quantity.new [2] SECOND))
    (some (Quantity.new [0, 2, 4] SECOND))

/-- C3 counterexample: the result of a successful addition carries a cached
axis although NEITHER operand has one (it is re-derived from the merged
`x0`/`dx`), so the cached-axis field does not follow the plain
field-by-field LHS-preferred/RHS-fallback rule the claim states for it. -/
theorem c3_counterexample :
    SeriesBuilder.build c3_lhs_builder = .ok c3_lhs ∧
    SeriesBuilder.build c3_rhs_builder = .ok c3_rhs ∧
    Series.add c3_lhs c3_rhs = .ok c3_sum ∧
    c3_lhs._xindex_cache = none ∧
    c3_rhs._xindex_cache = none ∧
    c3_sum._xindex_cache = some (Quantity.new [0, 2, 4] SECOND) ∧
    c3_sum._xindex_cache ≠ c3_lhs._xindex_cache.or c3_rhs._xindex_cache := by
  have hr : List.range 3 = [0, 1, 2] := rfl
  norm_num [c3_lhs_builder, c3_rhs_builder, c3_lhs, c3_rhs, c3_sum,
    SeriesBuilder.build, Series.add, series_binop, GWArray.add, GWArray.new,
    Quantity.add, Quantity.new, Quantity.to, propagate_metadata_series,
    rederive_from_x0_dx, Series.new_internal, Option.or, SECOND, Unit.new,
    UnitProduct.zero, hr]
  intro hcc
  cases hcc

/-- C3 (amended): for every successful Series arithmetic operation, the
five metadata fields `name`, `epoch`, `channel`, `x0`, `dx` are each taken
from the left operand when present and from the right operand otherwise,
independently per field; the cached axis only follows that precedence as a
CANDIDATE: it is reused verbatim whenever the precedence-selected cache is
present with a length matching the result, and otherwise re-derived (so it
may be present even when neither operand has a cache). -/
theorem c3_metadata_precedence (l r s : Series)
    (h : Series.add l r = .ok s ∨ Series.sub l r = .ok s ∨
         Series.mul l r = .ok s ∨ Series.div l r = .ok s) :
    s.get_name = l.get_name.or r.get_name ∧
    s.get_epoch = l.get_epoch.or r.get_epoch ∧
    s.get_channel = l.get_channel.or r.get_channel ∧
    s.get_x0 = l.get_x0.or r.get_x0 ∧
    s.get_dx = l.get_dx.or r.get_dx ∧
    (∀ iq, l.get_xindex.or r.get_xindex = some iq →
      iq.value.length = s.value.length → s.get_xindex = some iq) := by
  have hq : ∃ q, propagate_metadata_series q l r = some s := by
    rcases h with h | h | h | h
    · exact series_binop_ok GWArray.add l r s h
    · exact series_binop_ok GWArray.sub l r s h
    · exact series_binop_ok GWArray.mul l r s h
    · exact series_binop_ok GWArray.div l r s h
  obtain ⟨q, hp⟩ := hq
  obtain ⟨hval, hname, hepoch, hchan, hx0, hdx, hcache⟩ := propagate_ok_spec q l r s hp
  refine ⟨?_, ?_, ?_, ?_, ?_, ?_⟩
  · simpa [Series.get_name, GWArray.get_name] using hname
  · simpa [Series.get_epoch, GWArray.get_epoch] using hepoch
  · simpa [Series.get_channel, GWArray.get_channel] using hchan
  · simpa [Series.get_x0] using hx0
  · simpa [Series.get_dx] using hdx
  · intro iq hiq hlen
    simp only [Series.get_xindex] at hiq ⊢
    have hlen2 : iq.value.length = q.value.length := by
      rw [hlen]
      simp [Series.value, GWArray.value, hval]
    rw [hcache]
    unfold rederive_axis_policy
    simp only [hiq]
    rw [if_pos hlen2]

def c3_witness_lhs : Series :=
  Series.new_internal (GWArray.new [1] none (some "X") none none) none none none

def c3_witness_rhs : Series :=
  Series.new_internal
    (GWArray.new [2] none none (some (Time.from_gps_seconds 200))
      (some ⟨"RHS_CHANNEL"⟩)) none none none

def c3_witness_sum : Series :=
  Series.new_internal
    (GWArray.new [3] (some (Unit.new "" 1 UnitProduct.zero)) (some "X")
      (some (Time.from_gps_seconds 200)) (some ⟨"RHS_CHANNEL"⟩)) none none none

/-- C3 witness: adding `A{name:"X", epoch:None}` and
`B{name:None, epoch:Some t, channel:Some c}` yields name from the left and
epoch/channel from the right. -/
theorem c3_metadata_precedence_witness :
    c3_witness_sum.get_name = c3_witness_lhs.get_name.or c3_witness_rhs.get_name ∧
    c3_witness_sum.get_epoch = c3_witness_lhs.get_epoch.or c3_witness_rhs.get_epoch ∧
    c3_witness_sum.get_channel =
      c3_witness_lhs.get_channel.or c3_witness_rhs.get_channel ∧
    c3_witness_sum.get_x0 = c3_witness_lhs.get_x0.or c3_witness_rhs.get_x0 ∧
    c3_witness_sum.get_dx = c3_witness_lhs.get_dx.or c3_witness_rhs.get_dx := by
  have h := c3_metadata_precedence c3_witness_lhs c3_witness_rhs c3_witness_sum
    (Or.inl (by norm_num [c3_witness_lhs, c3_witness_rhs, c3_witness_sum,
      Series.add, series_binop, GWArray.add, GWArray.new, Quantity.add,
      Quantity.new, propagate_metadata_series, rederive_from_x0_dx,
      Series.new_internal, Option.or, Unit.new, UnitProduct.zero]))
  exact ⟨h.1, h.2.1, h.2.2.1, h.2.2.2.1, h.2.2.2.2.1⟩

/-- C8: every Series reachable through the public interface (a successful
build, or a successful arithmetic operation) has a materialized index
whose length, when the index is present, equals its value length. -/
theorem c8_index_length_invariant (s : Series)
    (h : (∃ b, SeriesBuilder.build b = .ok s) ∨
         (∃ l r, Series.add l r = .ok s) ∨ (∃ l r, Series.sub l r = .ok s) ∨
         (∃ l r, Series.mul l r = .ok s) ∨ (∃ l r, Series.div l r = .ok s)) :
    ∀ iq, s.get_xindex = some iq → iq.value.length = s.value.length := by
  intro iq hiq
  simp only [Series.get_xindex] at hiq
  have hops : ∀ (l r : Series) (gwop : GWArray → GWArray → Outcome GWArray),
      series_binop gwop l r = .ok s → iq.value.length = s.value.length := by
    intro l r gwop hop
    obtain ⟨q, hp⟩ := series_binop_ok gwop l r s hop
    obtain ⟨hval, -, -, -, -, -, hcache⟩ := propagate_ok_spec q l r s hp
    rw [hiq] at hcache
    have hlen := rederive_policy_some_length _ _ _ _ iq hcache.symm
    rw [hlen]
    simp [Series.value, GWArray.value, hval]
  rcases h with ⟨b, hb⟩ | ⟨l, r, hb⟩ | ⟨l, r, hb⟩ | ⟨l, r, hb⟩ | ⟨l, r, hb⟩
  · have := build_ok_cache_len b s hb iq hiq
    simpa [Series.value, GWArray.value] using this
  · exact hops l r GWArray.add hb
  · exact hops l r GWArray.sub hb
  · exact hops l r GWArray.mul hb
  · exact hops l r GWArray.div hb

def c8_witness_builder : SeriesBuilder :=
  { value := some [1, 2], x0 := some (Quantity.new [0] SECOND),
    dx := some (Quantity.new [1] SECOND) }

def c8_witness_series : Series :=
  Series.new_internal (GWArray.new [1, 2] none none none none)
    (some (Quantity.new [0] SECOND)) (some (Quantity.new [1] SECOND))
    (some (Quantity.new [0, 1] SECOND))

/-- C8 witness: the invariant instantiated at a concrete builder-produced
series with a derived two-sample axis. -/
theorem c8_index_length_invariant_witness :
    (Quantity.new [0, 1] SECOND).value.length = c8_witness_series.value.length :=
  c8_index_length_invariant c8_witness_series
    (Or.inl ⟨c8_witness_builder, by
      have hr : List.range 2 = [0, 1] := rfl
      norm_num [c8_witness_builder, c8_witness_series, SeriesBuilder.build,
        GWArray.new, GWArray.value, Quantity.add, Quantity.new, Quantity.to,
        Series.new_internal, SECOND, Unit.new, UnitProduct.zero, hr]⟩)
    (Quantity.new [0, 1] SECOND) (by decide)

/-! ## Claims C4, C7: the Series builder contract -/

/-- C4: for a builder invocation with a value array, no explicit index, and
both `x0` and `dx` supplied: a multi-valued `x0` or `dx` fails with the
single-value (scalar-required) error; for single-valued quantities whose
dimensions differ, build fails with an incompatible-units error naming both
unit names; otherwise `dx` is converted into `x0`'s unit and the axis is
the arithmetic progression `x0 + i * dx` over `0..len`, carrying `x0`'s
unit. -/
theorem c4_builder_x0_dx (b : SeriesBuilder) (v : List ℚ) (x0q dxq : Quantity)
    (hv : b.value = some v) (hxi : b.xindex = none)
    (hx0 : b.x0 = some x0q) (hdx : b.dx = some dxq) :
    (1 < x0q.value.length ∨ 1 < dxq.value.length →
      b.build = .error (.mismatchError "x0 and dx must be single-value quantities")) ∧
    (x0q.value.length = 1 → dxq.value.length = 1 →
      x0q.unit.dimensions ≠ dxq.unit.dimensions →
      b.build = .error (.incompatibleUnits x0q.unit.name dxq.unit.name)) ∧
    (x0q.value.length = 1 → dxq.value.length = 1 →
      x0q.unit.dimensions = dxq.unit.dimensions →
      b.build = .ok (Series.new_internal
        (GWArray.new v b.unit b.name b.epoch b.channel) b.x0 b.dx
        (some (Quantity.new
          ((List.range v.length).map (fun (i : Nat) =>
            x0q.value.headD 0 +
              (i : ℚ) * (dxq.value.headD 0 * dxq.unit.scale / x0q.unit.scale)))
          x0q.unit)))) := by
  refine ⟨?_, ?_, ?_⟩
  · intro hlen
    have hne : x0q.value.length ≠ 1 ∨ dxq.value.length ≠ 1 := by
      rcases hlen with h | h
      · exact Or.inl (by omega)
      · exact Or.inr (by omega)
    simp only [SeriesBuilder.build, hv, hxi, hx0, hdx]
    rw [if_pos hne]
  · intro h1 h2 hdim
    have hne : ¬(x0q.value.length ≠ 1 ∨ dxq.value.length ≠ 1) := by
      push_neg
      exact ⟨h1, h2⟩
    simp only [SeriesBuilder.build, hv, hxi, hx0, hdx]
    rw [if_neg hne, if_pos hdim]
  · intro h1 h2 hdim
    have hne : ¬(x0q.value.length ≠ 1 ∨ dxq.value.length ≠ 1) := by
      push_neg
      exact ⟨h1, h2⟩
    obtain ⟨d, hd⟩ := List.length_eq_one.mp h2
    simp only [SeriesBuilder.build, hv, hxi, hx0, hdx]
    rw [if_neg hne, if_neg (by simpa using hdim)]
    simp only [Quantity.to, hdim.symm, if_pos]
    simp [GWArray.new, GWArray.value, Quantity.new, hd]

def c4_witness_builder : SeriesBuilder :=
  { value := some [1, 2, 3, 2, 4, 3], unit := some METER,
    x0 := some (Quantity.new [0] SECOND), dx := some (Quantity.new [2] SECOND) }

/-- C4 witness: a series built with `x0 = 0 s`, `dx = 2 s` over 6 samples
carries the axis `[0, 2, 4, 6, 8, 10]` seconds. -/
theorem c4_builder_x0_dx_witness :
    SeriesBuilder.build c4_witness_builder = .ok (Series.new_internal
      (GWArray.new [1, 2, 3, 2, 4, 3] (some METER) none none none)
      (some (Quantity.new [0] SECOND)) (some (Quantity.new [2] SECOND))
      (some (Quantity.new [0, 2, 4, 6, 8, 10] SECOND))) := by
  have h := (c4_builder_x0_dx c4_witness_builder [1, 2, 3, 2, 4, 3]
    (Quantity.new [0] SECOND) (Quantity.new [2] SECOND) rfl rfl rfl rfl).2.2
    rfl rfl rfl
  rw [h]
  have hr : List.range 6 = [0, 1, 2, 3, 4, 5] := rfl
  norm_num [c4_witness_builder, Quantity.new, SECOND, METER, GWArray.new,
    Series.new_internal, hr]

/-- A needle occurs inside a string. -/
def strContains (hay needle : String) : Prop :=
  ∃ l r, hay = l ++ needle ++ r

/-- C7: building with an explicit index whose length differs from the value
length fails with a length-mismatch error whose message cites both lengths
in parentheses; when the lengths agree the explicit index is used verbatim
as the axis. -/
theorem c7_explicit_index (b : SeriesBuilder) (v : List ℚ) (iq : Quantity)
    (hv : b.value = some v) (hxi : b.xindex = some iq) :
    (iq.value.length ≠ v.length →
      b.build = .error (.mismatchError
        ("Index length (" ++ toString iq.value.length ++
          ") must match value length (" ++ toString v.length ++ ")")) ∧
      strContains
        ("Index length (" ++ toString iq.value.length ++
          ") must match value length (" ++ toString v.length ++ ")")
        ("(" ++ toString iq.value.length ++ ")") ∧
      strContains
        ("Index length (" ++ toString iq.value.length ++
          ") must match value length (" ++ toString v.length ++ ")")
        ("(" ++ toString v.length ++ ")")) ∧
    (iq.value.length = v.length →
      b.build = .ok (Series.new_internal
        (GWArray.new v b.unit b.name b.epoch b.channel) b.x0 b.dx (some iq))) := by
  constructor
  · intro hlen
    refine ⟨?_, ?_, ?_⟩
    · simp only [SeriesBuilder.build, hv, hxi]
      rw [if_pos (by simpa [GWArray.new, GWArray.value, Quantity.new] using hlen)]
      simp [GWArray.new, GWArray.value, Quantity.new]
    · refine ⟨"Index length ",
        " must match value length (" ++ toString v.length ++ ")", ?_⟩
      apply String.ext
      simp [String.data_append, List.append_assoc]
    · refine ⟨"Index length (" ++ toString iq.value.length ++
        ") must match value length ", "", ?_⟩
      apply String.ext
      simp [String.data_append, List.append_assoc]
  · intro hlen
    simp only [SeriesBuilder.build, hv, hxi]
    rw [if_neg (by simpa [GWArray.new, GWArray.value, Quantity.new] using hlen)]

def c7_witness_builder_bad : SeriesBuilder :=
  { value := some [1, 2, 3], xindex := some (Quantity.new [0, 1] SECOND) }

def c7_witness_builder_good : SeriesBuilder :=
  { value := some [1, 2, 3], xindex := some (Quantity.new [5, 6, 7] SECOND) }

/-- C7 witness: a 2-element index against a 3-element value array fails with
the length-mismatch error citing "(2)" and "(3)"; a 3-element index is used
verbatim. -/
theorem c7_explicit_index_witness :
    (SeriesBuilder.build c7_witness_builder_bad = .error (.mismatchError
      ("Index length (" ++ toString (Quantity.new [(0 : ℚ), 1] SECOND).value.length ++
        ") must match value length (" ++ toString [(1 : ℚ), 2, 3].length ++ ")")) ∧
     strContains
      ("Index length (" ++ toString (Quantity.new [(0 : ℚ), 1] SECOND).value.length ++
        ") must match value length (" ++ toString [(1 : ℚ), 2, 3].length ++ ")")
      ("(" ++ toString (Quantity.new [(0 : ℚ), 1] SECOND).value.length ++ ")") ∧
     strContains
      ("Index length (" ++ toString (Quantity.new [(0 : ℚ), 1] SECOND).value.length ++
        ") must match value length (" ++ toString [(1 : ℚ), 2, 3].length ++ ")")
      ("(" ++ toString [(1 : ℚ), 2, 3].length ++ ")")) ∧
    SeriesBuilder.build c7_witness_builder_good = .ok (Series.new_internal
      (GWArray.new [1, 2, 3] none none none none) none none
      (some (Quantity.new [5, 6, 7] SECOND))) :=
  ⟨(c7_explicit_index c7_witness_builder_bad [1, 2, 3]
      (Quantity.new [0, 1] SECOND) rfl rfl).1 (by decide),
   (c7_explicit_index c7_witness_builder_good [1, 2, 3]
      (Quantity.new [5, 6, 7] SECOND) rfl rfl).2 (by decide)⟩

/-! ## Claims C5, C10: TimeSeriesBase epoch and provenance -/

theorem ts_build_times_ok (b : TimeSeriesBaseBuilder) (tq : Quantity)
    (ts : TimeSeriesBase) (htimes : b.times = some tq) (h : b.build = .ok ts) :
    ∃ v, b.value = some v ∧
      SeriesBuilder.build
        { value := some v, unit := some (b.unit.getD (Unit.new "" 1 UnitProduct.zero)),
          name := b.name, channel := b.channel, xindex := some tq } =
        .ok ts.series_data := by
  rcases hv : b.value with _ | v
  · simp [TimeSeriesBaseBuilder.build, hv] at h
  · refine ⟨v, rfl, ?_⟩
    simp only [TimeSeriesBaseBuilder.build, hv, htimes] at h
    unfold ts_finish at h
    split at h
    next s hs =>
      cases h
      exact hs
    next e hs => exact absurd h (by simp)

/-- C10: for every TimeSeriesBase built with an explicit time array, any
`t0`, `epoch`, `dt` or `sample_rate` also supplied to the builder is
discarded: `get_t0` and `get_dt` return `None`, hence `get_epoch` and
`get_sample_rate` return `None`, while `get_times` returns the axis. -/
theorem c10_times_discards_t0_dt (b : TimeSeriesBaseBuilder) (tq : Quantity)
    (ts : TimeSeriesBase) (htimes : b.times = some tq) (h : b.build = .ok ts) :
    ts.get_t0 = none ∧ ts.get_dt = none ∧ ts.get_epoch = none ∧
    ts.get_sample_rate = none ∧ ts.get_times = some tq := by
  obtain ⟨v, hv, hb⟩ := ts_build_times_ok b tq ts htimes h
  obtain ⟨hx0, hdx, -, -, -, -, hxi⟩ := build_ok_fields _ _ hb
  have ht0 : ts.get_t0 = none := by
    simpa [TimeSeriesBase.get_t0, Series.get_x0] using hx0
  have hdt : ts.get_dt = none := by
    simpa [TimeSeriesBase.get_dt, Series.get_dx] using hdx
  refine ⟨ht0, hdt, ?_, ?_, ?_⟩
  · simp [TimeSeriesBase.get_epoch, ht0]
  · simp [TimeSeriesBase.get_sample_rate, hdt]
  · have hc := hxi tq rfl
    simpa [TimeSeriesBase.get_times, Series.get_xindex] using hc

def c10_witness_builder : TimeSeriesBaseBuilder :=
  { value := some [1, 2], t0 := some (Time.from_gps_seconds 5),
    dt := some (Quantity.new [1] SECOND),
    sample_rate := some (Quantity.new [4096] HERTZ),
    times := some (Quantity.new [7, 8] SECOND) }

def c10_witness_ts : TimeSeriesBase :=
  TimeSeriesBase.new_internal (Series.new_internal
    (GWArray.new [1, 2] (some (Unit.new "" 1 UnitProduct.zero)) none none none)
    none none (some (Quantity.new [7, 8] SECOND)))

/-- C10 witness: a builder given times AND t0/dt/sample_rate yields an
instance whose t0/dt/epoch/sample-rate views are all absent. -/
theorem c10_times_discards_t0_dt_witness :
    c10_witness_ts.get_t0 = none ∧ c10_witness_ts.get_dt = none ∧
    c10_witness_ts.get_epoch = none ∧ c10_witness_ts.get_sample_rate = none ∧
    c10_witness_ts.get_times = some (Quantity.new [7, 8] SECOND) :=
  c10_times_discards_t0_dt c10_witness_builder (Quantity.new [7, 8] SECOND)
    c10_witness_ts rfl (by decide)

def c5_builder : TimeSeriesBaseBuilder :=
  { value := some [10, 11, 12], times := some (Quantity.new [100, 101, 102] SECOND) }

def c5_ts : TimeSeriesBase :=
  TimeSeriesBase.new_internal (Series.new_internal
    (GWArray.new [10, 11, 12] (some (Unit.new "" 1 UnitProduct.zero)) none none none)
    none none (some (Quantity.new [100, 101, 102] SECOND)))

/-- C5 counterexample: a TimeSeriesBase built with an explicit non-empty
time array has `get_epoch = None`, NOT the GPS time of the first axis
value: `get_epoch` reads the stored `t0`, not the axis start. -/
theorem c5_counterexample :
    TimeSeriesBaseBuilder.build c5_builder = .ok c5_ts ∧
    c5_ts.get_times = some (Quantity.new [100, 101, 102] SECOND) ∧
    (c5_ts.get_times.map fun tq => tq.value.headD 0) = some 100 ∧
    c5_ts.get_epoch = none ∧
    c5_ts.get_epoch ≠ some (Time.from_gps_seconds 100) := by
  decide

/-- C5 (amended): `get_epoch` reconstructs a GPS time from the stored `t0`
(`x0`) quantity and is absent exactly when `t0` is absent; in particular,
for a TimeSeriesBase built with an explicit time array, `get_epoch` is
`None` even though the axis is present. -/
theorem c5_epoch_from_t0 (b : TimeSeriesBaseBuilder) (ts : TimeSeriesBase)
    (h : b.build = .ok ts) :
    (ts.get_epoch = none ↔ ts.get_t0 = none) ∧
    (∀ q, ts.get_t0 = some q →
      ts.get_epoch = some (Time.from_gps_seconds (q.value.headD 0))) ∧
    (∀ tq, b.times = some tq → ts.get_epoch = none) := by
  refine ⟨?_, ?_, ?_⟩
  · rcases hq : ts.get_t0 with _ | q
    · simp [TimeSeriesBase.get_epoch, hq]
    · simp [TimeSeriesBase.get_epoch, hq]
  · intro q hq
    simp [TimeSeriesBase.get_epoch, hq]
  · intro tq htq
    obtain ⟨v, hv, hb⟩ := ts_build_times_ok b tq ts htq h
    obtain ⟨hx0, -⟩ := build_ok_fields _ _ hb
    simp only [TimeSeriesBase.get_epoch, TimeSeriesBase.get_t0, Series.get_x0]
    simp [hx0]

def c5_witness_builder : TimeSeriesBaseBuilder :=
  { value := some [1, 2], t0 := some (Time.from_gps_seconds 100),
    dt := some (Quantity.new [1] SECOND) }

def c5_witness_ts : TimeSeriesBase :=
  TimeSeriesBase.new_internal (Series.new_internal
    (GWArray.new [1, 2] (some (Unit.new "" 1 UnitProduct.zero)) none none none)
    (some (Quantity.new [100] SECOND)) (some (Quantity.new [1] SECOND))
    (some (Quantity.new [100, 101] SECOND)))

/-- C5 witness: a TimeSeriesBase built with `t0 = 100 s` has
`get_epoch = Some (GPS 100)`, reconstructed from the stored t0 quantity. -/
theorem c5_epoch_from_t0_witness :
    c5_witness_ts.get_epoch =
      some (Time.from_gps_seconds ((Quantity.new [100] SECOND).value.headD 0)) :=
  (c5_epoch_from_t0 c5_witness_builder c5_witness_ts (by
      have hr : List.range 2 = [0, 1] := rfl
      norm_num [c5_witness_builder, c5_witness_ts, TimeSeriesBaseBuilder.build,
        ts_finish, SeriesBuilder.build, GWArray.new, GWArray.value, Quantity.new,
        Quantity.to, Series.new_internal, TimeSeriesBase.new_internal, SECOND,
        Unit.new, UnitProduct.zero, Time.from_gps_seconds,
        Time.as_gps_seconds_f64, hr])).2.1
    (Quantity.new [100] SECOND) (by decide)

end GWRS
